import Mathlib

/-!
Verification of `scripts/download_student_images.py`: a shallow embedding of
its pure naming, parsing and task-building logic, together with theorems
settling the specification claims about it.

Conventions of the embedding:
* Python strings are Lean `String`s (lists of characters).
* `None`-able values are `Option`s; Python "falsy or" chains (`a or b`) are
  modelled by explicit helpers that treat `None` and `""` (resp. `0`) as falsy.
* Code that can raise an uncaught exception returns an `Option`, with `none`
  standing for the raised exception.
* Ambient runtime state that the script reads (`datetime.now().year`,
  `threading.get_ident()`, HTTP responses, interactive input) is passed as
  explicit parameters, so that dependence on it can be stated and proved.
-/

namespace SchoolImages

/-- ASCII whitespace as matched by Python `\s` (on the ASCII range) and
stripped by `str.strip` / split by `str.split`. -/
def isSpaceChar (c : Char) : Bool :=
  c = ' ' || c = '\t' || c = '\n' || c = '\r' || c = '\x0b' || c = '\x0c'

/-- Characters kept by the regex `[^a-zA-Z0-9\s]` removal in
`sanitize_school_name`: ASCII letters, digits and whitespace. -/
def keptChar (c : Char) : Bool :=
  c.isAlphanum || isSpaceChar c

/-- Embeds `re.sub(r"\s+", "_", ...)`: replace every maximal run of whitespace by a
single underscore.  The `Bool` argument records whether we are inside a
whitespace run that has already emitted its underscore. -/
def collapseWsAux : Bool → List Char → List Char
  | _, [] => []
  | inRun, c :: cs =>
    if isSpaceChar c then
      if inRun then collapseWsAux true cs
      else '_' :: collapseWsAux true cs
    else c :: collapseWsAux false cs

def collapseWs (l : List Char) : List Char :=
  collapseWsAux false l

/-- Python `str.strip()`: drop leading and trailing whitespace. -/
def pyStrip (s : String) : String :=
  String.mk (((s.data.dropWhile isSpaceChar).reverse.dropWhile isSpaceChar).reverse)

/-- Embeds `sanitize_school_name` from the script:
remove characters outside `[a-zA-Z0-9\s]`, replace whitespace runs by `_`,
strip, and fall back to `"unknown"` when the argument or the result is falsy. -/
def sanitize_school_name (name : String) : String :=
  if name = "" then "unknown"
  else
    let clean := name.data.filter keptChar
    let clean := pyStrip (String.mk (collapseWs clean))
    if clean = "" then "unknown" else clean

/-- Python `(·).split()[0]` restricted to the first token: `none` when the
string has no non-whitespace character, in which case `split()` returns `[]`
and the indexing raises `IndexError`. -/
def firstToken (s : String) : Option String :=
  match s.data.dropWhile isSpaceChar with
  | [] => none
  | c :: cs => some (String.mk ((c :: cs).takeWhile (fun d => !isSpaceChar d)))

/-- Python `a or dflt` for an optional string: `None` and `""` are falsy. -/
def pyOrStr (a : Option String) (dflt : String) : String :=
  match a with
  | none => dflt
  | some s => if s = "" then dflt else s

/-- Python `a or dflt` for an optional integer: `None` and `0` are falsy. -/
def pyOrInt (a : Option Int) (dflt : Int) : Int :=
  match a with
  | none => dflt
  | some n => if n = 0 then dflt else n

/-- Embeds `student_folder_name` from the script.  The first name may be `None`;
the result is `none` exactly when `split()[0]` raises on a non-empty,
all-whitespace first name. -/
def student_folder_name (first_name : Option String) (age : Int) (grade : Int)
    (sectionName : String) (blood_group : String) (student_id : String) :
    Option String :=
  match firstToken (pyOrStr first_name "unknown") with
  | none => none
  | some first =>
      some ("student@" ++ first ++ "@" ++ toString age ++ "@" ++ toString grade
        ++ "@" ++ sectionName ++ "@" ++ blood_group ++ "@" ++ student_id)

/-- Numeric value of an ASCII digit character. -/
def digitVal (c : Char) : Nat := c.toNat - 48

/-- Modelled from the spec and the Python standard library:
`datetime.fromisoformat(dob).year` for the plain ISO dates `YYYY-MM-DD`
produced by the backend; `none` models the `ValueError` that the script
catches on any other input. -/
def fromisoformatYear (s : String) : Option Nat :=
  match s.data with
  | y1 :: y2 :: y3 :: y4 :: '-' :: m1 :: m2 :: '-' :: d1 :: d2 :: [] =>
    if y1.isDigit && y2.isDigit && y3.isDigit && y4.isDigit
        && m1.isDigit && m2.isDigit && d1.isDigit && d2.isDigit then
      let month := digitVal m1 * 10 + digitVal m2
      let day := digitVal d1 * 10 + digitVal d2
      if 1 ≤ month && month ≤ 12 && 1 ≤ day && day ≤ 31 then
        some (digitVal y1 * 1000 + digitVal y2 * 100 + digitVal y3 * 10 + digitVal y4)
      else none
    else none
  | _ => none

/-- The age computation in `main`: `0` when `dob` is falsy, otherwise
`datetime.now().year - datetime.fromisoformat(dob).year`, with the parse
failure caught and turned into `0`. -/
def computeAge (currentYear : Nat) (dob : Option String) : Int :=
  match dob with
  | none => 0
  | some d =>
    if d = "" then 0
    else
      match fromisoformatYear d with
      | some y => (currentYear : Int) - (y : Int)
      | none => 0

/-- A photo record as consumed by the task-building loop in `main`. -/
structure Photo where
  photoPath : Option String
  secure_url : Option String
  url : Option String
  photoNumber : Option Int
  deriving DecidableEq, Repr

/-- A student record as consumed by `main`.  `sectionName` embeds the JSON
field `section` (a Lean keyword). -/
structure Student where
  firstName : Option String
  dob : Option String
  grade : Option Int
  sectionName : Option String
  bloodGroup : Option String
  studentId : Option String
  id : Option String
  photos : List Photo
  deriving DecidableEq, Repr

/-- A school record as consumed by `main`. -/
structure School where
  mongoId : Option String
  schoolId : Option String
  name : Option String
  deriving DecidableEq, Repr

/-- The URL chain `p.get("photoPath") or p.get("secure_url") or p.get("url")`
with Python falsiness: `None` and `""` fall through to the next field. -/
def photoUrlField (p : Photo) : Option String :=
  pyOrStr3 p.photoPath (pyOrStr3 p.secure_url p.url)
where
  /-- Python `a or b` on optional strings, keeping the option. -/
  pyOrStr3 (a b : Option String) : Option String :=
    match a with
    | none => b
    | some s => if s = "" then b else some s

/-- Python `s.startswith(pre)`: `pre` is a character-wise prefix of `s`. -/
def pyStartsWith (s pre : String) : Bool :=
  pre.data.isPrefixOf s.data

/-- Eligibility test of the loop: `not (not url or not url.startswith("http"))`. -/
def eligiblePhoto (p : Photo) : Bool :=
  match photoUrlField p with
  | none => false
  | some u => u ≠ "" && pyStartsWith u "http"

/-- Embeds `url.split("?")[0]`: the part of the URL before the first `?`. -/
def beforeQuery (s : String) : String :=
  String.mk (s.data.takeWhile (fun c => c ≠ '?'))

/-- Embeds `os.path.splitext(p)[1]` (POSIX): the extension starts at the last dot
that lies after the last slash, provided some earlier character of the
basename is not a dot; otherwise it is empty. -/
def splitextExt (p : String) : String :=
  let rev := p.data.reverse
  let base := rev.takeWhile (fun c => c ≠ '/')
  let afterDot := base.takeWhile (fun c => c ≠ '.')
  if afterDot.length = base.length then ""
  else
    let beforeDot := base.drop (afterDot.length + 1)
    if beforeDot.any (fun c => c ≠ '.') then String.mk ('.' :: afterDot.reverse)
    else ""

/-- The extension logic of the loop:
`ext = os.path.splitext(url.split("?")[0])[1] or ".jpg"; if len(ext) > 5: ext = ".jpg"`. -/
def extForUrl (url : String) : String :=
  let ext := splitextExt (beforeQuery url)
  let ext := if ext = "" then ".jpg" else ext
  if ext.length > 5 then ".jpg" else ext

/-- The file name of the loop:
`f"{num if num is not None else int(threading.get_ident())}{ext}"`.
`ident` is the ambient `threading.get_ident()` of the submitting thread. -/
def photoFileName (ident : Nat) (p : Photo) (url : String) : String :=
  (match p.photoNumber with
   | some n => toString n
   | none => toString ident) ++ extForUrl url

/-- One iteration of the photo loop: `none` when the photo is skipped,
otherwise the `(url, filename)` pair appended to the task list. -/
def photoTask (ident : Nat) (p : Photo) : Option (String × String) :=
  match photoUrlField p with
  | none => none
  | some u =>
    if u = "" || !pyStartsWith u "http" then none
    else some (u, photoFileName ident p u)

/-- Embeds `str(s.get("id"))`: Python renders a missing value as `"None"`. -/
def pyStrOfId : Option String → String
  | none => "None"
  | some s => s

/-- The per-student attribute extraction and folder naming of `main`;
`none` when `student_folder_name` raises. -/
def folderNameOfStudent (currentYear : Nat) (s : Student) : Option String :=
  let first := pyOrStr s.firstName "unknown"
  let age := computeAge currentYear s.dob
  let grade := pyOrInt s.grade 0
  let sec := pyOrStr s.sectionName "A"
  let blood := pyOrStr s.bloodGroup "NA"
  let sid := pyOrStr s.studentId (pyStrOfId s.id)
  student_folder_name (some first) age grade sec blood sid

/-- All tasks of one student, as `(url, folderName, fileName)` triples;
`none` when the folder naming raises. -/
def studentTasks (currentYear ident : Nat) (s : Student) :
    Option (List (String × String × String)) :=
  match folderNameOfStudent currentYear s with
  | none => none
  | some folder =>
      some ((s.photos.filterMap (photoTask ident)).map
        (fun t => (t.1, folder, t.2)))

/-- The whole task-building loop over the fetched students, producing
`(url, target path)` pairs under `<school>/Students/`; `none` when any
student raises. -/
def buildAllTasks (currentYear ident : Nat) (schoolFolder : String)
    (students : List Student) : Option (List (String × String)) :=
  (students.mapM (studentTasks currentYear ident)).map
    (fun ls => ls.flatten.map
      (fun t => (t.1, schoolFolder ++ "/Students/" ++ t.2.1 ++ "/" ++ t.2.2)))

/-- An HTTP response as seen by `requests`: status code and body bytes. -/
structure HttpResponse where
  status : Nat
  body : List Nat
  deriving DecidableEq, Repr

/-- Embeds `download_url`: the `GET` either raises (`Except.error` with the cause)
or returns a response; `raise_for_status` raises on status ≥ 400.  Every
exception is caught, logged with the URL and the cause, and turned into
`false`; on success the function returns `true`.  The second component is
the failure log line, `none` on success. -/
def download_url (url : String) (result : Except String HttpResponse) :
    Bool × Option String :=
  match result with
  | .error e => (false, some ("Failed to download " ++ url ++ ": " ++ e))
  | .ok resp =>
    if 400 ≤ resp.status then
      (false, some ("Failed to download " ++ url ++ ": "
        ++ ("HTTPError " ++ toString resp.status)))
    else (true, none)

/-- The concurrent download phase, abstracted over an outcome oracle `result`
mapping each `(url, target)` task to its transport outcome: each task is
attempted independently, successes are counted and their targets saved.
Returns `(success_count, saved targets)`. -/
def downloadPhase (tasks : List (String × String))
    (result : String × String → Except String HttpResponse) :
    Nat × List (String × String) :=
  let saved := tasks.filter (fun t => (download_url t.1 (result t)).1)
  (saved.length, saved)

/-- Python `int(·)` on a stripped string: optional sign then decimal digits. -/
def pyParseInt (s : String) : Option Int :=
  match s.data with
  | '-' :: rest => (digitsToNat rest).map (fun n => -(n : Int))
  | '+' :: rest => (digitsToNat rest).map (fun n => (n : Int))
  | l => (digitsToNat l).map (fun n => (n : Int))
where
  digitsToNat (l : List Char) : Option Nat :=
    if l = [] then none
    else if l.all Char.isDigit then
      some (l.foldl (fun a c => a * 10 + digitVal c) 0)
    else none

/-- A JSON API response body: the `success` flag (`none` when the key is
absent) and the `data` list (`none` when absent or `null`). -/
structure ApiResponse (α : Type) where
  success : Option Bool
  data : Option (List α)

/-- Outcome of one HTTP fetch in `main`: either an exception anywhere in
`get`/`raise_for_status`/`json` (all caught by the same `except`), or a
parsed body. -/
inductive FetchOutcome (α : Type) where
  | transportError : String → FetchOutcome α
  | response : ApiResponse α → FetchOutcome α

/-- Outcome of the credential-entry sequence: the password was obtained
(via `--password`, `getpass`, or a fallback `input`), or every fallback
failed. -/
inductive CredentialOutcome where
  | provided : String → CredentialOutcome
  | unrecoverableFailure : CredentialOutcome

/-- All ambient inputs of one run of `main`. -/
structure Env where
  schoolsFetch : FetchOutcome School
  choice : String
  credentials : CredentialOutcome
  exportFetch : FetchOutcome Student
  currentYear : Nat
  threadIdent : Nat
  downloadResult : String × String → Except String HttpResponse

/-- The control flow of `main` as a function of its ambient inputs:
returns the exit status together with the final summary
`(success_count, task_count)` when the download phase is reached.
Exit status `1` also models a Python run killed by an uncaught exception
(the `IndexError` of `student_folder_name`). -/
def mainRun (env : Env) : Nat × Option (Nat × Nat) :=
  match env.schoolsFetch with
  | .transportError _ => (1, none)
  | .response r =>
    if r.success = some true then
      let schools := r.data.getD []
      if schools.isEmpty then (0, none)
      else
        match pyParseInt env.choice with
        | none => (1, none)
        | some n =>
          if 0 ≤ n - 1 ∧ n - 1 < (schools.length : Int) then
            let school := schools.getD (n - 1).toNat ⟨none, none, none⟩
            let schoolFolder := sanitize_school_name ((school.name).getD "")
            match env.credentials with
            | .unrecoverableFailure => (1, none)
            | .provided _ =>
              match env.exportFetch with
              | .transportError _ => (1, none)
              | .response r2 =>
                if r2.success = some true then
                  let students := r2.data.getD []
                  match buildAllTasks env.currentYear env.threadIdent
                      schoolFolder students with
                  | none => (1, none)
                  | some tasks =>
                    if tasks.isEmpty then (0, none)
                    else
                      (0, some ((downloadPhase tasks env.downloadResult).1, tasks.length))
                else (1, none)
          else (1, none)
    else (1, none)

/-! ### Concrete sample data (used to instantiate theorems at runs) -/

/-- A Cloudinary-style photo record numbered `i`. -/
def samplePhoto (i : Nat) : Photo :=
  ⟨some ("http://h/" ++ toString i ++ ".jpg"), none, none, some (i : Int)⟩

/-- A concrete student with five numbered photos. -/
def sampleStudent : Student :=
  ⟨some "Jane Doe", some "2015-06-01", some 5, some "B", some "O+", some "S123",
   none, [samplePhoto 1, samplePhoto 2, samplePhoto 3, samplePhoto 4, samplePhoto 5]⟩

/-- A concrete school record. -/
def sampleSchool : School := ⟨some "64aa00", some "SCH001", some "Test School"⟩

/-- A download oracle on which every `GET` succeeds. -/
def okDownloads : String × String → Except String HttpResponse :=
  fun _ => .ok ⟨200, [1]⟩

/-- A download oracle on which exactly the third photo's `GET` raises a
transport error. -/
def failThirdDownload : String × String → Except String HttpResponse :=
  fun t => if t.1 = "http://h/3.jpg" then .error "connection reset"
           else .ok ⟨200, [1]⟩

/-- A full run: one school, one student, five photo tasks, one failing
download. -/
def sampleEnv5 : Env :=
  ⟨.response ⟨some true, some [sampleSchool]⟩, "1", .provided "pw",
   .response ⟨some true, some [sampleStudent]⟩, 2024, 7, failThirdDownload⟩

/-- A run whose school listing raises a transport error. -/
def envFetchError : Env :=
  ⟨.transportError "connection refused", "1", .provided "pw",
   .transportError "unused", 2024, 7, okDownloads⟩

/-- A run where the backend reports success with zero schools. -/
def envNoSchools : Env :=
  ⟨.response ⟨some true, some []⟩, "1", .provided "pw",
   .transportError "unused", 2024, 7, okDownloads⟩

/-! ### Helper lemmas -/

lemma photoTask_eq (ident : Nat) (p : Photo) :
    photoTask ident p =
      if eligiblePhoto p then
        some ((photoUrlField p).getD "",
          photoFileName ident p ((photoUrlField p).getD ""))
      else none := by
  unfold photoTask eligiblePhoto
  cases h : photoUrlField p with
  | none => rfl
  | some u =>
      by_cases hu : u = ""
      · subst hu; simp
      · by_cases hs : pyStartsWith u "http" <;> simp [hu, hs]

lemma isSome_photoTask (ident : Nat) (p : Photo) :
    (photoTask ident p).isSome = eligiblePhoto p := by
  rw [photoTask_eq]
  by_cases h : eligiblePhoto p <;> simp [h]

lemma filterMap_photoTask (ident : Nat) (ps : List Photo) :
    ps.filterMap (photoTask ident) =
      (ps.filter eligiblePhoto).map
        (fun p => ((photoUrlField p).getD "",
          photoFileName ident p ((photoUrlField p).getD ""))) := by
  induction ps with
  | nil => rfl
  | cons p ps ih =>
      rw [List.filterMap_cons, List.filter_cons, photoTask_eq]
      by_cases h : eligiblePhoto p <;> simp [h, ih]

lemma photoTask_ident_eq (i1 i2 : Nat) (p : Photo)
    (h : p.photoNumber ≠ none) : photoTask i1 p = photoTask i2 p := by
  obtain ⟨n, hn⟩ := Option.ne_none_iff_exists'.mp h
  simp [photoTask, photoFileName, hn]

lemma collapseWsAux_true_of_all_space (l : List Char)
    (h : ∀ c ∈ l, isSpaceChar c = true) : collapseWsAux true l = [] := by
  induction l with
  | nil => rfl
  | cons c cs ih =>
      have hc := h c (by simp)
      show (if isSpaceChar c then collapseWsAux true cs
            else c :: collapseWsAux false cs) = []
      simp only [hc, if_true]
      exact ih (fun d hd => h d (by simp [hd]))

lemma collapseWs_all_space (c : Char) (cs : List Char)
    (h : ∀ d ∈ c :: cs, isSpaceChar d = true) : collapseWs (c :: cs) = ['_'] := by
  have hc := h c (by simp)
  show (if isSpaceChar c then '_' :: collapseWsAux true cs
        else c :: collapseWsAux false cs) = ['_']
  simp only [hc, if_true, List.cons.injEq, true_and]
  exact collapseWsAux_true_of_all_space cs (fun d hd => h d (by simp [hd]))

lemma sanitize_of_all_symbols (name : String)
    (h : ∀ c ∈ name.data, keptChar c = false) :
    sanitize_school_name name = "unknown" := by
  by_cases hne : name = ""
  · simp [sanitize_school_name, hne]
  · have hfil : name.data.filter keptChar = [] :=
      List.filter_eq_nil_iff.mpr (by intro a ha; simp [h a ha])
    simp [sanitize_school_name, hne, hfil, collapseWs, collapseWsAux, pyStrip]

lemma sanitize_of_all_space (name : String) (h1 : name ≠ "")
    (h2 : ∀ c ∈ name.data, isSpaceChar c = true) :
    sanitize_school_name name = "_" := by
  have hdata : name.data ≠ [] := by
    intro hd
    refine h1 (String.ext ?_)
    rw [hd]
  obtain ⟨c, cs, hcs⟩ := List.exists_cons_of_ne_nil hdata
  have hfil : name.data.filter keptChar = name.data :=
    List.filter_eq_self.mpr (by
      intro a ha
      simp [keptChar, h2 a ha])
  unfold sanitize_school_name
  rw [if_neg h1, hfil, hcs]
  show (if pyStrip ⟨collapseWs (c :: cs)⟩ = "" then "unknown"
        else pyStrip ⟨collapseWs (c :: cs)⟩) = "_"
  rw [collapseWs_all_space c cs (by rw [← hcs]; exact h2)]
  rfl

end SchoolImages

namespace SchoolImages

/-! ### Claim C2 -/

/-- C2 is refuted here: `sanitize_school_name` applied to the single-space
string (an input that is whitespace-only) returns `"_"`, not the claimed
literal `"unknown"`. -/
theorem C2_counterexample :
    sanitize_school_name " " = "_" ∧ sanitize_school_name " " ≠ "unknown" := by
  constructor <;> decide

/-- C2 (amended): `sanitize_school_name` keeps only letters, digits and
whitespace and collapses whitespace runs to single underscores; empty input
or input consisting entirely of stripped symbols yields `"unknown"`, but
whitespace-only input yields `"_"` (the trailing `strip()` removes only
whitespace, never the underscores just substituted). -/
theorem C2_sanitize_amended (name : String) :
    (name.data.all (fun c => !keptChar c) = true →
      sanitize_school_name name = "unknown")
    ∧ (name ≠ "" → name.data.all isSpaceChar = true →
      sanitize_school_name name = "_")
    ∧ sanitize_school_name "" = "unknown"
    ∧ sanitize_school_name "St. Marys  School!" = "St_Marys_School" := by
  refine ⟨fun h => ?_, fun h1 h2 => ?_, by decide, by decide⟩
  · exact sanitize_of_all_symbols name (by
      intro c hc
      have := List.all_eq_true.mp h c hc
      simpa using this)
  · exact sanitize_of_all_space name h1 (List.all_eq_true.mp h2)

/-- Witness for C2 (amended): a fully-symbolic name sanitizes to
`"unknown"` and a whitespace-only name sanitizes to `"_"`. -/
theorem C2_sanitize_amended_witness :
    sanitize_school_name "%$#" = "unknown" ∧ sanitize_school_name "\t " = "_" :=
  ⟨(C2_sanitize_amended "%$#").1 (by decide),
   (C2_sanitize_amended "\t ").2.1 (by decide) (by decide)⟩

/-! ### Claims C3 and C4 -/

/-- C3 is refuted here: for date of birth `"2015-06-01"` in year 2024 the
script computes age `2024 - 2015 = 9`, not the claimed `14`. -/
theorem C3_counterexample :
    computeAge 2024 (some "2015-06-01") = 9
    ∧ computeAge 2024 (some "2015-06-01") ≠ 14 := by
  constructor <;> decide

/-- C3 (amended): for a student whose date of birth is `"2015-06-01"`, the
age computed when the current year is 2024 equals 9. -/
theorem C3_age_2015 : computeAge 2024 (some "2015-06-01") = 9 := by decide

/-- C4: when the date of birth is present and parses as an ISO date the age
is current year minus birth year; when it is absent or unparseable the age
is 0. -/
theorem C4_age (currentYear : Nat) (dob : Option String) :
    (∀ d y, dob = some d → fromisoformatYear d = some y →
      computeAge currentYear dob = (currentYear : Int) - (y : Int))
    ∧ (dob = none → computeAge currentYear dob = 0)
    ∧ (∀ d, dob = some d → fromisoformatYear d = none →
      computeAge currentYear dob = 0) := by
  refine ⟨fun d y hd hy => ?_, fun hd => ?_, fun d hd hy => ?_⟩
  · subst hd
    have hne : d ≠ "" := by
      intro he
      rw [he] at hy
      exact Option.noConfusion hy
    simp [computeAge, hne, hy]
  · subst hd; rfl
  · subst hd
    by_cases he : d = "" <;> simp [computeAge, he, hy]

/-- Witness for C4 at a parseable and an unparseable date. -/
theorem C4_age_witness :
    computeAge 2024 (some "2015-06-01") = (2024 : Int) - (2015 : Int)
    ∧ computeAge 2024 (some "junk") = 0 :=
  ⟨(C4_age 2024 (some "2015-06-01")).1 "2015-06-01" 2015 rfl (by decide),
   (C4_age 2024 (some "junk")).2.2 "junk" rfl (by decide)⟩

/-! ### Claim C6 -/

/-- C6: the extension is taken from the URL path with the query stripped,
kept exactly as found when at most 5 characters long (dot included), and
replaced by `.jpg` when absent or longer; `.PNG` survives uppercased, and
`.jpegx` is replaced. -/
theorem C6_extension (url : String) :
    extForUrl url =
      (if splitextExt (beforeQuery url) = ""
          ∨ (splitextExt (beforeQuery url)).length > 5
        then ".jpg" else splitextExt (beforeQuery url))
    ∧ extForUrl "https://x/y/photo.PNG?x=1" = ".PNG"
    ∧ extForUrl "https://x/y/photo.jpegx" = ".jpg"
    ∧ extForUrl "https://x/y/photo" = ".jpg"
    ∧ extForUrl "https://x/y/photo.jpeg" = ".jpeg" := by
  refine ⟨?_, by decide, by decide, by decide, by decide⟩
  unfold extForUrl
  by_cases h0 : splitextExt (beforeQuery url) = ""
  · simp [h0]
  · by_cases h5 : (splitextExt (beforeQuery url)).length > 5 <;>
      simp [h0, h5]

/-! ### Claims C9 and C10 -/

/-- C9: `student_folder_name` keeps only the first whitespace token of the
(defaulted) first name and formats the seven `@`-separated fields; on
`("Jane Doe", 10, 5, "B", "O+", "S123")` it yields the quoted string. -/
theorem C9_folder_name (fn : Option String) (age grade : Int)
    (sec blood sid tok : String)
    (h : firstToken (pyOrStr fn "unknown") = some tok) :
    student_folder_name fn age grade sec blood sid =
      some ("student@" ++ tok ++ "@" ++ toString age ++ "@" ++ toString grade
        ++ "@" ++ sec ++ "@" ++ blood ++ "@" ++ sid)
    ∧ student_folder_name (some "Jane Doe") 10 5 "B" "O+" "S123" =
      some "student@Jane@10@5@B@O+@S123" := by
  refine ⟨?_, by decide⟩
  simp [student_folder_name, h]

/-- Witness for C9 at the example input. -/
theorem C9_folder_name_witness :
    student_folder_name (some "Jane Doe") 10 5 "B" "O+" "S123" =
      some ("student@" ++ "Jane" ++ "@" ++ toString (10 : Int) ++ "@"
        ++ toString (5 : Int) ++ "@" ++ "B" ++ "@" ++ "O+" ++ "@" ++ "S123") :=
  (C9_folder_name (some "Jane Doe") 10 5 "B" "O+" "S123" "Jane" (by decide)).1

/-- C10: `student_folder_name` is not total: a non-empty, all-whitespace
first name makes `split()[0]` raise (modelled as `none`), whereas `None` or
the empty string fall back to a name starting with `student@unknown@`. -/
theorem C10_not_total (fn : String) (age grade : Int) (sec blood sid : String)
    (h1 : fn ≠ "") (h2 : fn.data.all isSpaceChar = true) :
    student_folder_name (some fn) age grade sec blood sid = none
    ∧ (∀ fn2 : Option String, fn2 = none ∨ fn2 = some "" →
      ∃ rest, student_folder_name fn2 age grade sec blood sid =
        some ("student@unknown@" ++ rest)) := by
  constructor
  · have hdrop : fn.data.dropWhile isSpaceChar = [] :=
      List.dropWhile_eq_nil_iff.mpr (List.all_eq_true.mp h2)
    simp [student_folder_name, pyOrStr, h1, firstToken, hdrop]
  · intro fn2 hfn2
    refine ⟨toString age ++ "@" ++ toString grade ++ "@" ++ sec ++ "@" ++ blood
      ++ "@" ++ sid, ?_⟩
    rcases hfn2 with h | h <;> subst h <;>
      simp [student_folder_name, pyOrStr, firstToken, String.mk] <;> rfl

/-- Witness for C10: the single-space first name fails while `None` falls
back to `unknown`. -/
theorem C10_not_total_witness :
    student_folder_name (some " ") 10 5 "B" "O+" "S123" = none :=
  (C10_not_total " " 10 5 "B" "O+" "S123" (by decide) (by decide)).1

/-! ### Claim C1 -/

/-- C1 is refuted here: for a photo record with no `photoNumber`, the file
name embeds `threading.get_ident()` of the submitting thread, so two runs
whose main thread identifiers differ produce different file names for the
same school, student and photo record. -/
theorem C1_counterexample :
    photoFileName 1 ⟨some "http://h/a.jpg", none, none, none⟩ "http://h/a.jpg"
      ≠ photoFileName 2 ⟨some "http://h/a.jpg", none, none, none⟩ "http://h/a.jpg" := by
  decide

/-- C1 (amended): folder names, task URLs and the pairing of each task with
its folder are deterministic functions of the attributes (the thread
identifier never enters them), and file names are deterministic whenever the
photo carries a `photoNumber`; only a photo with no `photoNumber` gets a
thread-dependent file name. -/
theorem C1_deterministic_amended (year ident1 ident2 : Nat) (s : Student)
    (h : ∀ p ∈ s.photos, p.photoNumber ≠ none) :
    studentTasks year ident1 s = studentTasks year ident2 s
    ∧ ∀ s2 : Student,
      (studentTasks year ident1 s2).map (fun l => l.map (fun t => (t.1, t.2.1)))
        = (studentTasks year ident2 s2).map (fun l => l.map (fun t => (t.1, t.2.1))) := by
  constructor
  · unfold studentTasks
    cases folderNameOfStudent year s with
    | none => rfl
    | some folder =>
        rw [List.filterMap_congr
          (fun p hp => photoTask_ident_eq ident1 ident2 p (h p hp))]
  · intro s2
    unfold studentTasks
    cases folderNameOfStudent year s2 with
    | none => rfl
    | some folder =>
        simp only [Option.map_some']
        rw [filterMap_photoTask, filterMap_photoTask]
        simp [List.map_map, Function.comp]

/-- Witness for C1 (amended): a run over the sample student (all of whose
photos are numbered) builds the same tasks under two different thread
identifiers. -/
theorem C1_deterministic_witness :
    studentTasks 2024 1 sampleStudent = studentTasks 2024 2 sampleStudent :=
  (C1_deterministic_amended 2024 1 2 sampleStudent (by decide)).1

/-! ### Claim C5 -/

/-- C5: a photo yields a download task exactly when its URL chain produces a
value starting with `http`; each eligible photo yields exactly one task
(carrying that URL), and ineligible photos are skipped producing nothing. -/
theorem C5_photo_tasks (year ident : Nat) (s : Student) (folder : String)
    (hf : folderNameOfStudent year s = some folder) :
    (∀ p : Photo, (photoTask ident p).isSome = eligiblePhoto p)
    ∧ studentTasks year ident s =
      some ((s.photos.filter eligiblePhoto).map
        (fun p => ((photoUrlField p).getD "", folder,
          photoFileName ident p ((photoUrlField p).getD "")))) := by
  refine ⟨isSome_photoTask ident, ?_⟩
  unfold studentTasks
  rw [hf, filterMap_photoTask]
  simp [List.map_map, Function.comp]

/-- Witness for C5 at the sample student: its five photos are all eligible
and produce exactly five tasks. -/
theorem C5_photo_tasks_witness :
    studentTasks 2024 7 sampleStudent =
      some ((sampleStudent.photos.filter eligiblePhoto).map
        (fun p => ((photoUrlField p).getD "", "student@Jane@9@5@B@O+@S123",
          photoFileName 7 p ((photoUrlField p).getD "")))) :=
  (C5_photo_tasks 2024 7 sampleStudent "student@Jane@9@5@B@O+@S123" (by decide)).2

/-! ### Claim C7 -/

/-- C7: each task's outcome depends only on its own download result — the
success count is the number of tasks whose own download succeeds, a target
is saved iff its own download succeeds, every failure is logged with the
URL and the underlying cause, and the concrete five-task run with one
transport error ends with summary `4/5` and exit status `0`. -/
theorem C7_isolation (tasks : List (String × String))
    (result : String × String → Except String HttpResponse) :
    (downloadPhase tasks result).1
      = (tasks.filter (fun t => (download_url t.1 (result t)).1)).length
    ∧ (∀ t : String × String, t ∈ (downloadPhase tasks result).2 ↔
        t ∈ tasks ∧ (download_url t.1 (result t)).1 = true)
    ∧ (∀ u r, (download_url u r).1 = false → ∃ cause,
        (download_url u r).2 = some ("Failed to download " ++ u ++ ": " ++ cause))
    ∧ mainRun sampleEnv5 = (0, some (4, 5)) := by
  refine ⟨rfl, fun t => List.mem_filter, fun u r hf => ?_, by decide⟩
  cases r with
  | error e => exact ⟨e, rfl⟩
  | ok resp =>
      by_cases h4 : 400 ≤ resp.status
      · refine ⟨"HTTPError " ++ toString resp.status, ?_⟩
        simp [download_url, h4]
      · exfalso
        simp [download_url, h4] at hf

/-- Witness for C7: the failure log of a concrete transport error names the
URL and the cause. -/
theorem C7_isolation_witness :
    ∃ cause, (download_url "http://h/3.jpg" (Except.error "connection reset")).2
      = some ("Failed to download " ++ "http://h/3.jpg" ++ ": " ++ cause) :=
  (C7_isolation [] okDownloads).2.2.1 "http://h/3.jpg"
    (Except.error "connection reset") rfl

/-! ### Claim C8 -/

/-- C8: the process exits 0 on success and on "nothing to do" (zero schools,
or a task list that is empty), and exits 1 on a metadata fetch failure
(transport error, or success flag false or absent), on an invalid school
selection (non-numeric or out-of-range), and on an unrecoverable
credential-entry failure; download outcomes never change the exit status. -/
theorem C8_exit_codes (env : Env) :
    (∀ e, env.schoolsFetch = .transportError e → (mainRun env).1 = 1)
    ∧ (∀ r, env.schoolsFetch = .response r → r.success ≠ some true →
      (mainRun env).1 = 1)
    ∧ (∀ r, env.schoolsFetch = .response r → r.success = some true →
      r.data.getD [] = [] → (mainRun env).1 = 0)
    ∧ (∀ r, env.schoolsFetch = .response r → r.success = some true →
      r.data.getD [] ≠ [] → pyParseInt env.choice = none → (mainRun env).1 = 1)
    ∧ (∀ r n, env.schoolsFetch = .response r → r.success = some true →
      r.data.getD [] ≠ [] → pyParseInt env.choice = some n →
      ¬(0 ≤ n - 1 ∧ n - 1 < ((r.data.getD []).length : Int)) →
      (mainRun env).1 = 1)
    ∧ (∀ r n, env.schoolsFetch = .response r → r.success = some true →
      r.data.getD [] ≠ [] → pyParseInt env.choice = some n →
      (0 ≤ n - 1 ∧ n - 1 < ((r.data.getD []).length : Int)) →
      env.credentials = .unrecoverableFailure → (mainRun env).1 = 1)
    ∧ (∀ r n pw e2, env.schoolsFetch = .response r → r.success = some true →
      r.data.getD [] ≠ [] → pyParseInt env.choice = some n →
      (0 ≤ n - 1 ∧ n - 1 < ((r.data.getD []).length : Int)) →
      env.credentials = .provided pw →
      env.exportFetch = .transportError e2 → (mainRun env).1 = 1)
    ∧ (∀ r n pw r2, env.schoolsFetch = .response r → r.success = some true →
      r.data.getD [] ≠ [] → pyParseInt env.choice = some n →
      (0 ≤ n - 1 ∧ n - 1 < ((r.data.getD []).length : Int)) →
      env.credentials = .provided pw → env.exportFetch = .response r2 →
      r2.success ≠ some true → (mainRun env).1 = 1)
    ∧ (∀ r n pw r2 l, env.schoolsFetch = .response r → r.success = some true →
      r.data.getD [] ≠ [] → pyParseInt env.choice = some n →
      (0 ≤ n - 1 ∧ n - 1 < ((r.data.getD []).length : Int)) →
      env.credentials = .provided pw → env.exportFetch = .response r2 →
      r2.success = some true →
      buildAllTasks env.currentYear env.threadIdent
        (sanitize_school_name ((((r.data.getD []).getD (n - 1).toNat
          ⟨none, none, none⟩).name).getD "")) (r2.data.getD []) = some l →
      (mainRun env).1 = 0)
    ∧ (∀ res, (mainRun { env with downloadResult := res }).1 = (mainRun env).1) := by
  refine ⟨?_, ?_, ?_, ?_, ?_, ?_, ?_, ?_, ?_, ?_⟩
  · intro e h
    simp [mainRun, h]
  · intro r h hs
    simp [mainRun, h, hs]
  · intro r h hs hd
    simp [mainRun, h, hs, hd]
  · intro r h hs hd hp
    simp [mainRun, h, hs, hd, hp, List.isEmpty_iff]
  · intro r n h hs hd hp hr
    rw [Int.sub_nonneg] at hr
    simp [mainRun, h, hs, hd, hp, hr, List.isEmpty_iff]
  · intro r n h hs hd hp hr hc
    simp [mainRun, h, hs, hd, hp, hr, hc, List.isEmpty_iff]
  · intro r n pw e2 h hs hd hp hr hc he
    simp [mainRun, h, hs, hd, hp, hr, hc, he, List.isEmpty_iff]
  · intro r n pw r2 h hs hd hp hr hc he hs2
    simp [mainRun, h, hs, hd, hp, hr, hc, he, hs2, List.isEmpty_iff]
  · intro r n pw r2 l h hs hd hp hr hc he hs2 hb
    simp only [mainRun, h, hs, hd, hp, hr, hc, he, hs2, hb, if_true, if_pos]
    simp [List.isEmpty_iff, hd, hb]
    split <;> rfl
  · intro res
    obtain ⟨sf, ch, cr, ef, cy, ti, dr⟩ := env
    cases sf with
    | transportError e => rfl
    | response r =>
        show (mainRun ⟨.response r, ch, cr, ef, cy, ti, res⟩).1
          = (mainRun ⟨.response r, ch, cr, ef, cy, ti, dr⟩).1
        unfold mainRun
        by_cases hs : r.success = some true
        · simp only [hs, if_true]
          by_cases hd : (r.data.getD []).isEmpty
          · simp [hd]
          · simp only [hd, if_false, Bool.false_eq_true]
            cases pyParseInt ch with
            | none => rfl
            | some n =>
                by_cases hr : 0 ≤ n - 1 ∧ n - 1 < ((r.data.getD []).length : Int)
                · simp only [hr, if_true]
                  cases cr with
                  | unrecoverableFailure => rfl
                  | provided pw =>
                      cases ef with
                      | transportError e2 => rfl
                      | response r2 =>
                          by_cases hs2 : r2.success = some true
                          · simp only [hs2, if_true]
                            cases buildAllTasks cy ti
                                (sanitize_school_name ((((r.data.getD []).getD
                                  (n - 1).toNat ⟨none, none, none⟩).name).getD ""))
                                (r2.data.getD []) with
                            | none => rfl
                            | some tasks =>
                                by_cases ht : tasks.isEmpty <;> simp [ht]
                          · simp [hs2]
                · rw [Int.sub_nonneg] at hr
                  simp [hr]
        · simp [hs]

/-- Witness for C8: concrete runs hitting the fetch-failure exit (1), the
no-school exit (0), and the successful five-task run (0). -/
theorem C8_exit_codes_witness :
    (mainRun envFetchError).1 = 1 ∧ (mainRun envNoSchools).1 = 0
      ∧ (mainRun sampleEnv5).1 = 0 :=
  ⟨(C8_exit_codes envFetchError).1 "connection refused" rfl,
   (C8_exit_codes envNoSchools).2.2.1 ⟨some true, some []⟩ rfl rfl rfl,
   (C8_exit_codes sampleEnv5).2.2.2.2.2.2.2.2.1
     ⟨some true, some [sampleSchool]⟩ 1 "pw" ⟨some true, some [sampleStudent]⟩
     ((buildAllTasks 2024 7 "Test_School" [sampleStudent]).getD [])
     rfl rfl (by decide) (by decide) (by decide) rfl rfl rfl (by decide)⟩

end SchoolImages
